import Mathlib

/-!
Shallow embedding of `src/modules/fal_flux_node.py` (ComfyUI-Fal-API-Flux).

The repository is a single ComfyUI node class `FalAPIFluxNode`.  We embed:

* `get_api_key` / `__init__` (lines 18-20, 46-52): reading the credential from
  the config source and storing it into the process environment.  Assigning
  `None` into `os.environ` raises `TypeError` in Python ("str expected, not
  NoneType"), which we model explicitly.
* `generate` (lines 54-171): payload construction, remote submission, the
  per-image decode loop with its raw-buffer fallback, and the final error
  checks.

External collaborators (the `fal_client` service, `requests`, PIL decoding,
base64) are not code of this repository; they are modelled as oracles in an
`Env` record.  Byte strings are `List Nat` (each entry one byte value).
Python float arithmetic that only passes values through is modelled over `ℚ`;
the one place where float rounding could matter (the min-max normalisation in
the fallback path, whose exact pixel values no claim depends on) is modelled
with natural floor division, and its division-by-zero case (numpy produces
NaN/Inf and casts them to an unspecified uint8) is modelled by an explicit
oracle `nanCast`.
-/

namespace FalFlux

/-- A byte string: each entry is one byte value (0..255 for real data). -/
abbrev Bytes := List Nat

/-- An opaque LoRA configuration object (a Python dict, forwarded as-is).
Python truthiness of a dict is "non-empty". -/
structure LoraConfig where
  fields : List (String × String)
deriving DecidableEq, Repr

/-- Python truthiness of a LORA_CONFIG value (`if lora_config:` at line 73). -/
def loraTruthy (c : LoraConfig) : Bool :=
  !c.fields.isEmpty

/-- Python truthiness of `self.api_key` (`if not self.api_key`, line 55):
`None` and the empty string are falsy. -/
def pyTruthy : Option String → Bool
  | none => false
  | some s => !s.isEmpty

/-- The input to `generate` (lines 54 and the INPUT_TYPES schema):
five required core parameters, an optional seed (`None` when not supplied),
and five optional LoRA slots passed as keyword arguments. -/
structure GenRequest where
  prompt : String
  image_size : String
  num_inference_steps : Nat
  guidance_scale : ℚ
  num_images : Nat
  seed : Option Nat
  lora_1 : Option LoraConfig
  lora_2 : Option LoraConfig
  lora_3 : Option LoraConfig
  lora_4 : Option LoraConfig
  lora_5 : Option LoraConfig
deriving DecidableEq, Repr

/-- The `arguments` dict built by `generate` (lines 58-77).  Optional dict
keys are `Option` fields: `none` means the key is absent from the payload. -/
structure Payload where
  prompt : String
  image_size : String
  num_inference_steps : Nat
  guidance_scale : ℚ
  num_images : Nat
  enable_safety_checker : Bool
  seed : Option Nat
  loras : Option (List LoraConfig)
deriving DecidableEq, Repr

/-- The LoRA slots in loop order `for i in range(1, 6)` (line 71):
`kwargs.get("lora_i")` yields `none` when the keyword is absent. -/
def loraSlots (req : GenRequest) : List (Option LoraConfig) :=
  [req.lora_1, req.lora_2, req.lora_3, req.lora_4, req.lora_5]

/-- The accumulation loop of lines 70-74: append each truthy slot value. -/
def loraLoop (slots : List (Option LoraConfig)) : List LoraConfig :=
  slots.foldl
    (fun acc s =>
      match s with
      | some c => if loraTruthy c then acc ++ [c] else acc
      | none => acc)
    []

/-- Builds the `arguments` payload of lines 58-77: copy the five core
parameters, set `enable_safety_checker` unconditionally, add `seed` only when
supplied and non-zero (line 67), and add `loras` only when the collected list
is non-empty (line 76). -/
def buildArguments (req : GenRequest) : Payload :=
  let lora_list := loraLoop (loraSlots req)
  { prompt := req.prompt
    image_size := req.image_size
    num_inference_steps := req.num_inference_steps
    guidance_scale := req.guidance_scale
    num_images := req.num_images
    enable_safety_checker := true
    seed := match req.seed with
      | some n => if n ≠ 0 then some n else none
      | none => none
    loras := if lora_list.isEmpty then none else some lora_list }

/-- A PIL image as the code observes it: a mode string, its dimensions and
samples-per-pixel, and its flat (row-major) sample data. -/
structure PILImage where
  mode : String
  height : Nat
  width : Nat
  channels : Nat
  data : Bytes
deriving DecidableEq, Repr

/-- A numpy array as used on the fallback path: a shape and flat data. -/
structure NpArray where
  shape : List Nat
  data : Bytes
deriving DecidableEq, Repr

/-- `np.frombuffer(img_data, dtype=np.uint8)` (line 137): always a flat
one-dimensional array over the raw bytes. -/
def frombuffer (data : Bytes) : NpArray :=
  { shape := [data.length], data := data }

/-- The reshape chain of lines 141-144: a `(1024,)` array becomes `32×32`;
the `(1, 1, 1024)` branch is kept as written; anything else is untouched. -/
def fallbackReshape (a : NpArray) : NpArray :=
  if a.shape = [1024] then { shape := [32, 32], data := a.data }
  else if a.shape = [1, 1, 1024] then { shape := [32, 32], data := a.data }
  else a

/-- `img_np.min()` on a non-empty array (numpy raises on an empty one;
callers check emptiness before using this). -/
def npMin : Bytes → Nat
  | [] => 0
  | x :: xs => xs.foldl Nat.min x

/-- `img_np.max()` on a non-empty array. -/
def npMax : Bytes → Nat
  | [] => 0
  | x :: xs => xs.foldl Nat.max x

/-- The divisor `img_np.max() - img_np.min()` of the normalisation at
line 147. -/
def fallbackDivisor (data : Bytes) : Nat :=
  npMax data - npMin data

/-- The error-path oracles for the external libraries used by `generate`.

* `b64decode s = none` models `base64.b64decode` raising (a `ValueError`
  subclass, caught at line 114).
* `httpGet url = none` models `requests.get`/`raise_for_status` failing with
  a `RequestException` (caught at line 123).
* `pilOpen data = none` models `Image.open` raising (caught at line 134,
  which triggers the raw-buffer fallback).
* `convertOther` models `img.convert("RGB")` on modes other than `RGB` and
  `L` (an opaque PIL conversion).
* `nanCast` models `astype(np.uint8)` applied to the NaN/Inf values numpy
  produces when the normalisation divisor is zero (platform-defined).
* `submit` models `fal_client.submit(...)` followed by `handler.get()`
  (lines 82-86); an error carries the exception text and, when the exception
  has a `response`, that response's body text. -/
structure SubmitError where
  msg : String
  responseBody : Option String
deriving DecidableEq, Repr

/-- One entry of `result["images"]` (line 99): either not a dict at all, or
a dict that may lack the `"url"` key (`dict none`) or carry a url string. -/
inductive Descriptor where
  | notDict : Descriptor
  | dict : Option String → Descriptor
deriving DecidableEq, Repr

/-- The API response dict: `images = none` models `"images" not in result`. -/
structure ApiResult where
  images : Option (List Descriptor)
deriving DecidableEq, Repr

structure Env where
  b64decode : String → Option Bytes
  httpGet : String → Option Bytes
  pilOpen : Bytes → Option PILImage
  convertOther : PILImage → PILImage
  nanCast : Nat → Nat
  submit : Payload → Except SubmitError ApiResult

/-- The normalisation of line 147:
`((img_np - img_np.min()) / (img_np.max() - img_np.min()) * 255).astype(np.uint8)`.
When the divisor is zero, numpy's float division yields NaN (and Inf), and the
uint8 cast of those is platform-defined: modelled by `nanCast`.  Otherwise the
float computation truncated to uint8 is modelled by floor division (no claim
depends on the exact rounded pixel values). -/
def minMaxNormalize (env : Env) (data : Bytes) : Bytes :=
  if fallbackDivisor data = 0 then
    data.map env.nanCast
  else
    data.map (fun x => (x - npMin data) * 255 / fallbackDivisor data)

/-- `img.convert("RGB")` (lines 150 and 154).  On an `RGB` image PIL returns
the image unchanged; an `L` (grayscale) image is expanded by replicating the
single sample into three channels; other modes go to the oracle. -/
def convertRGB (env : Env) (img : PILImage) : PILImage :=
  if img.mode = "RGB" then img
  else if img.mode = "L" then
    { mode := "RGB", height := img.height, width := img.width, channels := 3,
      data := img.data.flatMap (fun b => [b, b, b]) }
  else env.convertOther img

/-- The raw-buffer fallback of lines 136-150: reinterpret the bytes as a flat
uint8 array, reshape a `(1024,)` array to `32×32`, min-max normalise, build a
grayscale image and convert it to RGB.  Returns `none` when this path itself
raises (caught by the outer handler at line 163): `min()` on an empty array
raises `ValueError` — this happens before `Image.fromarray`, so the empty
buffer never reaches the image construction.  `Image.fromarray(img_np, "L")`
on a 2-D `h×w` array builds an `h×w` image, and on a 1-D length-`n` array
Pillow takes `size = (1, n)` and builds a `1×n` image (`n` rows of one
pixel), so a non-1024 buffer survives as a height-`n`, width-1 image.  The
arrays here always have rank 1 or 2, so the final arm (a rank-3+ array, on
which `fromarray` with mode `L` raises) is unreachable. -/
def rawFallback (env : Env) (data : Bytes) : Option PILImage :=
  let arr := fallbackReshape (frombuffer data)
  if arr.data.isEmpty then none
  else
    match arr.shape with
    | [h, w] =>
        some (convertRGB env
          { mode := "L", height := h, width := w, channels := 1,
            data := minMaxNormalize env arr.data })
    | [n] =>
        some (convertRGB env
          { mode := "L", height := n, width := 1, channels := 1,
            data := minMaxNormalize env arr.data })
    | _ => none

/-- The host's image tensor: shape fields plus flat float data (modelled over
`ℚ`; each value is a byte divided by 255, so rounding is irrelevant to the
bounds the spec states). -/
structure ImageTensor where
  height : Nat
  width : Nat
  channels : Nat
  data : List ℚ
deriving DecidableEq, Repr

/-- Lines 157-160: `np.array(img).astype(np.float32) / 255.0` followed by
`torch.from_numpy`. -/
def tensorOfImage (img : PILImage) : ImageTensor :=
  { height := img.height, width := img.width, channels := img.channels,
    data := img.data.map (fun (b : ℕ) => (b : ℚ) / 255) }

/-- `s.startswith(pre)` over explicit character lists. -/
def charsStartWith : List Char → List Char → Bool
  | [], _ => true
  | _ :: _, [] => false
  | p :: ps, c :: cs => p == c && charsStartWith ps cs

/-- `img_url.startswith("data:image")` (line 109). -/
def strStartsWith (s pre : String) : Bool :=
  charsStartWith pre.toList s.toList

/-- Split a character list at its first comma. -/
def splitFirstComma : List Char → Option (List Char × List Char)
  | [] => none
  | c :: cs =>
      if c = ',' then some ([], cs)
      else
        match splitFirstComma cs with
        | none => none
        | some (a, b) => some (c :: a, b)

/-- `img_url.split(",", 1)` unpacked into two targets (line 112): `none`
models the `ValueError` raised when the url has no comma. -/
def splitOnceComma (s : String) : Option (String × String) :=
  match splitFirstComma s.toList with
  | none => none
  | some (a, b) => some (String.mk a, String.mk b)

/-- Lines 109-125: obtain the image bytes from the descriptor url.  A
`data:image` url is split at its first comma and base64-decoded (any
`ValueError` skips the image); any other url is fetched over HTTP (any
`RequestException` skips the image). -/
def fetchData (env : Env) (url : String) : Option Bytes :=
  if strStartsWith url "data:image" then
    match splitOnceComma url with
    | none => none
    | some (_, b64) => env.b64decode b64
  else
    env.httpGet url

/-- Lines 130-160: interpret the fetched bytes.  Try `Image.open`; on failure
fall back to the raw-buffer path; ensure RGB mode; convert to a float tensor.
`none` means the iteration raised into the outer per-image handler. -/
def decodeBytes (env : Env) (data : Bytes) : Option ImageTensor :=
  let img? :=
    match env.pilOpen data with
    | some img => some img
    | none => rawFallback env data
  match img? with
  | none => none
  | some img =>
      let rgb := if img.mode = "RGB" then img else convertRGB env img
      some (tensorOfImage rgb)

/-- One iteration of the loop at lines 99-164 for a single descriptor:
`none` means the descriptor was skipped (malformed descriptor, missing or
empty url, split/decode/fetch failure, or any error caught by the outer
per-image handler). -/
def processImage (env : Env) (d : Descriptor) : Option ImageTensor :=
  match d with
  | .notDict => none
  | .dict none => none
  | .dict (some url) =>
      if url.isEmpty then none
      else
        match fetchData env url with
        | none => none
        | some data => decodeBytes env data

/-- The errors `generate` can raise.  `configError` is the `ValueError` of
line 56; `apiError` is the `RuntimeError` of line 92 (raised `from e`, so it
carries the original submission error); `noImages` and `processingFailed` are
the `RuntimeError`s of lines 96 and 168. -/
inductive GenError where
  | configError : String → GenError
  | apiError : String → SubmitError → GenError
  | noImages : String → GenError
  | processingFailed : String → GenError
deriving DecidableEq, Repr

/-- The two `GenError` kinds the spec groups as `EmptyResultError`: the API
returned no images, or no image survived decoding. -/
def GenError.isEmptyResult : GenError → Bool
  | .noImages _ => true
  | .processingFailed _ => true
  | _ => false

/-- The node object: its only per-instance state is `self.api_key`. -/
structure FalAPIFluxNode where
  api_key : Option String
deriving DecidableEq, Repr

/-- `generate` (lines 54-171).  Returns the list of decoded image tensors
(the code wraps it in a one-element tuple for the host) or the raised error. -/
def generate (env : Env) (node : FalAPIFluxNode) (req : GenRequest) :
    Except GenError (List ImageTensor) :=
  if !pyTruthy node.api_key then
    .error (.configError "API key is not set. Please check your config.ini file.")
  else
    let arguments := buildArguments req
    match env.submit arguments with
    | .error e =>
        .error (.apiError ("An error occurred when calling the fal.ai API: " ++ e.msg) e)
    | .ok result =>
        match result.images with
        | none => .error (.noImages "No images were generated by the API.")
        | some imgs =>
            if imgs.isEmpty then
              .error (.noImages "No images were generated by the API.")
            else
              let output := imgs.filterMap (processImage env)
              if output.isEmpty then
                .error (.processingFailed "Failed to process any of the generated images.")
              else
                .ok output

/-- The config source seen by `get_api_key` (lines 46-52): whether
`config.ini` exists, and the `falai`/`api_key` entry (`config.get` with
`fallback=None` returns `None` when the section or option is missing). -/
structure ConfigSource where
  fileExists : Bool
  apiKeyEntry : Option String
deriving DecidableEq, Repr

def get_api_key (cfg : ConfigSource) : Option String :=
  if cfg.fileExists then cfg.apiKeyEntry else none

/-- The error `__init__` can raise. -/
inductive InitError where
  | typeError : String → InitError
deriving DecidableEq, Repr

/-- `os.environ["FAL_KEY"] = self.api_key` (line 20): `os.environ` values
must be strings, so assigning `None` raises `TypeError`. -/
def setEnvironFalKey (v : Option String) : Except InitError Unit :=
  match v with
  | none => .error (.typeError "str expected, not NoneType")
  | some _ => .ok ()

/-- `__init__` (lines 18-20): read the key, store it into the process
environment, and keep it on the instance. -/
def initNode (cfg : ConfigSource) : Except InitError FalAPIFluxNode :=
  let key := get_api_key cfg
  match setEnvironFalKey key with
  | .error e => .error e
  | .ok _ => .ok { api_key := key }

/-- The specification's description of LoRA collection (§4.4.2): the
non-empty slot values in slot order, empty slots skipped. -/
def collectLoras (slots : List (Option LoraConfig)) : List LoraConfig :=
  slots.filterMap (fun s => s.bind (fun c => if loraTruthy c then some c else none))

/-- A descriptor carrying a valid data-URI image under `env`: a dict with a
non-empty `data:image...` url whose base64 payload decodes and whose bytes
open as a standard image. -/
def isValidDataUriDesc (env : Env) (d : Descriptor) : Bool :=
  match d with
  | .dict (some url) =>
      !url.isEmpty && strStartsWith url "data:image" &&
        (match splitOnceComma url with
         | some (_, b64) =>
             (match env.b64decode b64 with
              | some data => (env.pilOpen data).isSome
              | none => false)
         | none => false)
  | _ => false

/-! ### A concrete environment for evaluating the theorems

`sampleEnvWith r` is one concrete, executable instantiation of the library
oracles: base64 text `"IMG"` decodes to the byte string `[7]`, which PIL opens
as a 1×1 RGB image; every other input fails, and the submission returns `r`. -/

def onePix : PILImage :=
  { mode := "RGB", height := 1, width := 1, channels := 3, data := [10, 20, 30] }

def sampleEnvWith (r : Except SubmitError ApiResult) : Env :=
  { b64decode := fun s => if s = "IMG" then some [7] else none
    httpGet := fun _ => none
    pilOpen := fun data => if data = [7] then some onePix else none
    convertOther := fun img =>
      { mode := "RGB", height := img.height, width := img.width, channels := 3,
        data := List.replicate (img.height * img.width * 3) 0 }
    nanCast := fun _ => 0
    submit := fun _ => r }

/-- A data-URI descriptor that decodes in `sampleEnvWith r`. -/
def goodDesc : Descriptor := .dict (some "data:image/png;base64,IMG")

/-- A malformed data-URI descriptor: no comma, so `split(",", 1)` fails. -/
def badDesc : Descriptor := .dict (some "data:image/png;base64")

/-- A request with every optional input left at its Python default. -/
def plainReq : GenRequest :=
  { prompt := "p", image_size := "square", num_inference_steps := 28,
    guidance_scale := 7/2, num_images := 1, seed := none,
    lora_1 := none, lora_2 := none, lora_3 := none, lora_4 := none,
    lora_5 := none }

/-- A response of three descriptors whose middle one has a malformed URL. -/
def threeDescs : List Descriptor := [goodDesc, badDesc, goodDesc]

/-! ### Well-formedness of the external-library oracles

`PILWF` records the invariants every image produced by PIL satisfies: the
flat data has `height * width * channels` samples, samples are 8-bit, an
`RGB` image has three channels and an `L` image one. `EnvWF` states that the
oracles respect the documented behaviour of the libraries they stand for. -/

def PILWF (img : PILImage) : Prop :=
  img.data.length = img.height * img.width * img.channels ∧
  (∀ b ∈ img.data, b ≤ 255) ∧
  (img.mode = "RGB" → img.channels = 3) ∧
  (img.mode = "L" → img.channels = 1)

structure EnvWF (env : Env) : Prop where
  pilOpen_wf : ∀ data img, env.pilOpen data = some img → PILWF img
  convertOther_mode : ∀ img, (env.convertOther img).mode = "RGB"
  convertOther_height : ∀ img, (env.convertOther img).height = img.height
  convertOther_width : ∀ img, (env.convertOther img).width = img.width
  convertOther_channels : ∀ img, (env.convertOther img).channels = 3
  convertOther_len : ∀ img,
    (env.convertOther img).data.length = img.height * img.width * 3
  convertOther_bytes : ∀ img, ∀ b ∈ (env.convertOther img).data, b ≤ 255
  nanCast_le : ∀ n, env.nanCast n ≤ 255

/-! ### Helper lemmas about the numpy-style operations -/

lemma foldl_min_le_init (l : Bytes) : ∀ a : Nat, l.foldl Nat.min a ≤ a := by
  induction l with
  | nil => intro a; exact Nat.le_refl a
  | cons x xs ih =>
      intro a
      exact Nat.le_trans (ih (Nat.min a x)) (Nat.min_le_left a x)

lemma foldl_min_le_mem (l : Bytes) : ∀ a x, x ∈ l → l.foldl Nat.min a ≤ x := by
  induction l with
  | nil => intro a x hx; cases hx
  | cons y ys ih =>
      intro a x hx
      rcases List.mem_cons.mp hx with h | h
      · subst h
        exact Nat.le_trans (foldl_min_le_init ys (Nat.min a x)) (Nat.min_le_right a x)
      · exact ih (Nat.min a y) x h

lemma init_le_foldl_max (l : Bytes) : ∀ a : Nat, a ≤ l.foldl Nat.max a := by
  induction l with
  | nil => intro a; exact Nat.le_refl a
  | cons x xs ih =>
      intro a
      exact Nat.le_trans (Nat.le_max_left a x) (ih (Nat.max a x))

lemma mem_le_foldl_max (l : Bytes) : ∀ a x, x ∈ l → x ≤ l.foldl Nat.max a := by
  induction l with
  | nil => intro a x hx; cases hx
  | cons y ys ih =>
      intro a x hx
      rcases List.mem_cons.mp hx with h | h
      · subst h
        exact Nat.le_trans (Nat.le_max_right a x) (init_le_foldl_max ys (Nat.max a x))
      · exact ih (Nat.max a y) x h

lemma npMin_le_mem (l : Bytes) (x : Nat) (hx : x ∈ l) : npMin l ≤ x := by
  cases l with
  | nil => cases hx
  | cons y ys =>
      rcases List.mem_cons.mp hx with h | h
      · subst h; exact foldl_min_le_init ys x
      · exact foldl_min_le_mem ys y x h

lemma mem_le_npMax (l : Bytes) (x : Nat) (hx : x ∈ l) : x ≤ npMax l := by
  cases l with
  | nil => cases hx
  | cons y ys =>
      rcases List.mem_cons.mp hx with h | h
      · subst h; exact init_le_foldl_max ys x
      · exact mem_le_foldl_max ys y x h

lemma minMaxNormalize_length (env : Env) (data : Bytes) :
    (minMaxNormalize env data).length = data.length := by
  unfold minMaxNormalize
  split <;> simp

lemma minMaxNormalize_le (env : Env) (hcast : ∀ n, env.nanCast n ≤ 255)
    (data : Bytes) : ∀ b ∈ minMaxNormalize env data, b ≤ 255 := by
  intro b hb
  unfold minMaxNormalize at hb
  split at hb
  · rcases List.mem_map.mp hb with ⟨x, _, hx⟩
    exact hx ▸ hcast x
  · rcases List.mem_map.mp hb with ⟨x, hxmem, hx⟩
    subst hx
    rename_i hdvd
    have hpos : 0 < fallbackDivisor data := Nat.pos_of_ne_zero hdvd
    have hle : x - npMin data ≤ fallbackDivisor data := by
      unfold fallbackDivisor
      exact Nat.sub_le_sub_right (mem_le_npMax data x hxmem) (npMin data)
    have h1 : (x - npMin data) * 255 ≤ fallbackDivisor data * 255 :=
      Nat.mul_le_mul_right 255 hle
    calc (x - npMin data) * 255 / fallbackDivisor data
        ≤ fallbackDivisor data * 255 / fallbackDivisor data :=
          Nat.div_le_div_right h1
      _ = 255 := Nat.mul_div_cancel_left 255 hpos

lemma length_flatMap_triple (l : Bytes) :
    (l.flatMap (fun b => [b, b, b])).length = 3 * l.length := by
  induction l with
  | nil => rfl
  | cons x xs ih => simp [List.flatMap_cons, ih]; ring

/-- What `convertRGB` guarantees on a well-formed image under well-formed
oracles: an RGB image of the same dimensions with 8-bit samples. -/
lemma convertRGB_wf {env : Env} (hwf : EnvWF env) {img : PILImage}
    (himg : PILWF img) :
    (convertRGB env img).mode = "RGB" ∧
    (convertRGB env img).channels = 3 ∧
    (convertRGB env img).height = img.height ∧
    (convertRGB env img).width = img.width ∧
    (convertRGB env img).data.length =
      (convertRGB env img).height * (convertRGB env img).width * 3 ∧
    (∀ b ∈ (convertRGB env img).data, b ≤ 255) := by
  obtain ⟨hlen, hbytes, hrgb, hl⟩ := himg
  unfold convertRGB
  by_cases hmode : img.mode = "RGB"
  · rw [if_pos hmode]
    refine ⟨hmode, hrgb hmode, rfl, rfl, ?_, hbytes⟩
    rw [hlen, hrgb hmode]
  · rw [if_neg hmode]
    by_cases hmodeL : img.mode = "L"
    · rw [if_pos hmodeL]
      refine ⟨rfl, rfl, rfl, rfl, ?_, ?_⟩
      · simp only [length_flatMap_triple, hlen, hl hmodeL]
        ring
      · intro b hb
        rcases List.mem_flatMap.mp hb with ⟨a, hamem, hab⟩
        have : b = a := by
          rcases List.mem_cons.mp hab with h | h
          · exact h
          · rcases List.mem_cons.mp h with h2 | h2
            · exact h2
            · exact List.mem_singleton.mp h2
        exact this ▸ hbytes a hamem
    · rw [if_neg hmodeL]
      refine ⟨hwf.convertOther_mode img, hwf.convertOther_channels img, ?_, ?_, ?_, hwf.convertOther_bytes img⟩
      · exact hwf.convertOther_height img
      · exact hwf.convertOther_width img
      · rw [hwf.convertOther_len img, hwf.convertOther_height img, hwf.convertOther_width img]

lemma fallbackReshape_of_len (data : Bytes) (h : data.length = 1024) :
    fallbackReshape (frombuffer data) = ⟨[32, 32], data⟩ := by
  unfold fallbackReshape frombuffer
  rw [if_pos (by simp [h])]

lemma fallbackReshape_of_len_ne (data : Bytes) (h : data.length ≠ 1024) :
    fallbackReshape (frombuffer data) = ⟨[data.length], data⟩ := by
  unfold fallbackReshape frombuffer
  rw [if_neg (by simp [h]), if_neg (by simp)]

/-- The empty buffer is dropped before any image is constructed: `min()`
raises `ValueError` on an empty array. -/
lemma rawFallback_nil (env : Env) : rawFallback env [] = none := rfl

/-- A non-empty buffer whose flat length is not 1024 stays one-dimensional
and reaches the grayscale construction un-reshaped: Pillow builds a 1×n `L`
image from the 1-D array, so it survives as a height-`n`, width-1 image. -/
lemma rawFallback_of_length_ne (env : Env) (data : Bytes)
    (h : data.length ≠ 1024) (hnil : data ≠ []) :
    rawFallback env data =
      some (convertRGB env
        { mode := "L", height := data.length, width := 1, channels := 1,
          data := minMaxNormalize env data }) := by
  unfold rawFallback
  rw [fallbackReshape_of_len_ne data h]
  have hie : data.isEmpty = false := by
    cases data with
    | nil => exact absurd rfl hnil
    | cons x xs => rfl
  simp [hie]

/-- A 1024-byte buffer goes through reshape, normalisation, grayscale
construction and RGB conversion. -/
lemma rawFallback_of_length_eq (env : Env) (data : Bytes)
    (h : data.length = 1024) :
    rawFallback env data =
      some (convertRGB env
        { mode := "L", height := 32, width := 32, channels := 1,
          data := minMaxNormalize env data }) := by
  unfold rawFallback
  rw [fallbackReshape_of_len data h]
  have hne : data.isEmpty = false := by
    cases data with
    | nil => exact absurd h (by simp)
    | cons x xs => rfl
  simp [hne]

/-- The grayscale image the fallback builds is PIL-well-formed whenever its
dimensions account for the buffer length. -/
lemma pilwf_gray (env : Env) (hcast : ∀ n, env.nanCast n ≤ 255)
    (h w : Nat) (data : Bytes) (hlen : data.length = h * w) :
    PILWF { mode := "L", height := h, width := w, channels := 1,
            data := minMaxNormalize env data } := by
  refine ⟨?_, minMaxNormalize_le env hcast data, ?_, ?_⟩
  · show (minMaxNormalize env data).length = h * w * 1
    rw [minMaxNormalize_length, hlen, Nat.mul_one]
  · intro hc; exact absurd hc (by decide : ¬("L" : String) = "RGB")
  · intro _; rfl

/-- Any image produced by the raw-buffer fallback under well-formed oracles
is an RGB image with 8-bit samples and consistent dimensions (32×32 for a
1024-byte buffer, length×1 otherwise). -/
lemma rawFallback_wf {env : Env} (hwf : EnvWF env) {data : Bytes}
    {img : PILImage} (h : rawFallback env data = some img) :
    img.mode = "RGB" ∧ img.channels = 3 ∧
    img.data.length = img.height * img.width * 3 ∧
    (∀ b ∈ img.data, b ≤ 255) := by
  by_cases hnil : data = []
  · subst hnil
    rw [rawFallback_nil] at h
    cases h
  · by_cases hlen : data.length = 1024
    · rw [rawFallback_of_length_eq env data hlen] at h
      have hpil : PILWF
          { mode := "L", height := 32, width := 32, channels := 1,
            data := minMaxNormalize env data } :=
        pilwf_gray env hwf.nanCast_le 32 32 data (by rw [hlen])
      have hc := convertRGB_wf hwf hpil
      have himg : img = convertRGB env
          { mode := "L", height := 32, width := 32, channels := 1,
            data := minMaxNormalize env data } :=
        (Option.some_injective _ h.symm)
      rw [himg]
      exact ⟨hc.1, hc.2.1, hc.2.2.2.2.1, hc.2.2.2.2.2⟩
    · rw [rawFallback_of_length_ne env data hlen hnil] at h
      have hpil : PILWF
          { mode := "L", height := data.length, width := 1, channels := 1,
            data := minMaxNormalize env data } :=
        pilwf_gray env hwf.nanCast_le data.length 1 data (Nat.mul_one _).symm
      have hc := convertRGB_wf hwf hpil
      have himg : img = convertRGB env
          { mode := "L", height := data.length, width := 1, channels := 1,
            data := minMaxNormalize env data } :=
        (Option.some_injective _ h.symm)
      rw [himg]
      exact ⟨hc.1, hc.2.1, hc.2.2.2.2.1, hc.2.2.2.2.2⟩

/-- Tensor conversion of an RGB-shaped image with 8-bit samples yields a
three-channel, shape-consistent tensor with values in `[0, 1]`. -/
lemma tensorOfImage_wf (img : PILImage) (hch : img.channels = 3)
    (hlen : img.data.length = img.height * img.width * 3)
    (hbytes : ∀ b ∈ img.data, b ≤ 255) :
    (tensorOfImage img).channels = 3 ∧
    (tensorOfImage img).data.length =
      (tensorOfImage img).height * (tensorOfImage img).width * 3 ∧
    (∀ q ∈ (tensorOfImage img).data, 0 ≤ q ∧ q ≤ 1) := by
  refine ⟨hch, ?_, ?_⟩
  · simp only [tensorOfImage, List.length_map]
    exact hlen
  · intro q hq
    simp only [tensorOfImage, List.mem_map] at hq
    rcases hq with ⟨b, hbmem, hbq⟩
    subst hbq
    constructor
    · positivity
    · rw [div_le_one (by norm_num : (0:ℚ) < 255)]
      exact_mod_cast hbytes b hbmem

/-- Any tensor produced for a single descriptor's bytes under well-formed
oracles has three channels, consistent shape, and values in `[0, 1]`. -/
lemma decodeBytes_wf {env : Env} (hwf : EnvWF env) {data : Bytes}
    {t : ImageTensor} (h : decodeBytes env data = some t) :
    t.channels = 3 ∧
    t.data.length = t.height * t.width * 3 ∧
    (∀ q ∈ t.data, 0 ≤ q ∧ q ≤ 1) := by
  unfold decodeBytes at h
  cases hopen : env.pilOpen data with
  | some img =>
      rw [hopen] at h
      simp only at h
      obtain ⟨hlen, hbytes, hrgb, hl⟩ := hwf.pilOpen_wf data img hopen
      by_cases hmode : img.mode = "RGB"
      · rw [if_pos hmode] at h
        have ht : t = tensorOfImage img := (Option.some_injective _ h.symm)
        rw [ht]
        exact tensorOfImage_wf img (hrgb hmode)
          (by rw [hlen, hrgb hmode]) hbytes
      · rw [if_neg hmode] at h
        have hc := convertRGB_wf hwf ⟨hlen, hbytes, hrgb, hl⟩
        have ht : t = tensorOfImage (convertRGB env img) :=
          (Option.some_injective _ h.symm)
        rw [ht]
        exact tensorOfImage_wf _ hc.2.1 hc.2.2.2.2.1 hc.2.2.2.2.2
  | none =>
      rw [hopen] at h
      simp only at h
      cases hfb : rawFallback env data with
      | none => rw [hfb] at h; cases h
      | some img =>
          rw [hfb] at h
          simp only at h
          obtain ⟨hmode, hch, hlen, hbytes⟩ := rawFallback_wf hwf hfb
          rw [if_pos hmode] at h
          have ht : t = tensorOfImage img := (Option.some_injective _ h.symm)
          rw [ht]
          exact tensorOfImage_wf img hch hlen hbytes

/-- Same bundle lifted to a whole descriptor. -/
lemma processImage_wf {env : Env} (hwf : EnvWF env) {d : Descriptor}
    {t : ImageTensor} (h : processImage env d = some t) :
    t.channels = 3 ∧
    t.data.length = t.height * t.width * 3 ∧
    (∀ q ∈ t.data, 0 ≤ q ∧ q ≤ 1) := by
  unfold processImage at h
  cases d with
  | notDict => cases h
  | dict url? =>
      cases url? with
      | none => cases h
      | some url =>
          simp only at h
          by_cases hurl : url.isEmpty
          · rw [if_pos hurl] at h; cases h
          · rw [if_neg hurl] at h
            cases hfd : fetchData env url with
            | none => rw [hfd] at h; cases h
            | some data => rw [hfd] at h; exact decodeBytes_wf hwf h

/-- The surviving-image count is the count of descriptors whose processing
succeeds. -/
lemma length_filterMap_processImage (f : Descriptor → Option ImageTensor)
    (l : List Descriptor) :
    (l.filterMap f).length = l.countP (fun d => (f d).isSome) := by
  induction l with
  | nil => rfl
  | cons x xs ih =>
      cases hfx : f x <;>
        simp [List.filterMap_cons, hfx, List.countP_cons, ih]

/-- `generate` after a successful submission whose response carries a
non-empty image list: the decode loop runs, and the result is determined by
the per-descriptor outcomes alone. -/
lemma generate_of_images {env : Env} {key : Option String} {req : GenRequest}
    {l : List Descriptor} (hkey : pyTruthy key = true)
    (hs : env.submit (buildArguments req) = .ok ⟨some l⟩) (hne : l ≠ []) :
    generate env ⟨key⟩ req =
      if (l.filterMap (processImage env)).isEmpty then
        .error (.processingFailed "Failed to process any of the generated images.")
      else
        .ok (l.filterMap (processImage env)) := by
  unfold generate
  simp only [hkey, Bool.not_true, Bool.false_eq_true, if_false, hs]
  have : l.isEmpty = false := by
    cases l with
    | nil => exact absurd rfl hne
    | cons x xs => rfl
  simp [this]

lemma sampleEnv_wf (r : Except SubmitError ApiResult) :
    EnvWF (sampleEnvWith r) := by
  constructor
  · intro data img h
    simp only [sampleEnvWith] at h
    by_cases hd : data = [7]
    · rw [if_pos hd] at h
      have himg : img = onePix := (Option.some_injective _ h.symm)
      subst himg
      exact ⟨rfl, by decide, fun _ => rfl,
        fun hc => absurd hc (by decide : ¬("RGB" : String) = "L")⟩
    · rw [if_neg hd] at h; cases h
  · intro img; rfl
  · intro img; rfl
  · intro img; rfl
  · intro img; rfl
  · intro img; simp [sampleEnvWith]
  · intro img b hb
    simp only [sampleEnvWith, List.mem_replicate] at hb
    omega
  · intro n; exact Nat.zero_le 255

/-- The source's accumulation loop computes exactly the in-order filter of
truthy slots. -/
lemma loraLoop_eq_collectLoras (slots : List (Option LoraConfig)) :
    loraLoop slots = collectLoras slots := by
  suffices h : ∀ acc, slots.foldl
      (fun acc s =>
        match s with
        | some c => if loraTruthy c then acc ++ [c] else acc
        | none => acc) acc = acc ++ collectLoras slots by
    simpa [loraLoop] using h []
  induction slots with
  | nil => intro acc; simp [collectLoras]
  | cons s ss ih =>
      intro acc
      cases s with
      | none => simp [collectLoras, List.filterMap_cons, ih]
      | some c =>
          by_cases hc : loraTruthy c
          · simp [collectLoras, List.filterMap_cons, hc, ih]
          · simp [collectLoras, List.filterMap_cons, hc, ih]

/-- Survivors plus dropped descriptors account for the whole response. -/
lemma length_filterMap_add_countP_isNone (f : Descriptor → Option ImageTensor)
    (l : List Descriptor) :
    (l.filterMap f).length + l.countP (fun d => (f d).isNone) = l.length := by
  induction l with
  | nil => rfl
  | cons x xs ih =>
      cases hfx : f x <;>
        simp [List.filterMap_cons, hfx, List.countP_cons, ih] <;> omega

/-- When every descriptor decodes, the loop is an order-preserving map. -/
lemma map_eq_filterMap_map_some (f : Descriptor → Option ImageTensor)
    (l : List Descriptor) (h : ∀ a ∈ l, (f a).isSome = true) :
    l.map f = (l.filterMap f).map some := by
  induction l with
  | nil => rfl
  | cons x xs ih =>
      have hx := h x (List.mem_cons_self x xs)
      cases hfx : f x with
      | none => rw [hfx] at hx; cases hx
      | some t =>
          simp only [List.map_cons, List.filterMap_cons, hfx]
          rw [ih (fun a ha => h a (List.mem_cons_of_mem x ha))]

/-- A valid data-URI descriptor survives the decode loop. -/
lemma processImage_isSome_of_valid {env : Env} {d : Descriptor}
    (h : isValidDataUriDesc env d = true) :
    (processImage env d).isSome = true := by
  unfold isValidDataUriDesc at h
  cases d with
  | notDict => cases h
  | dict url? =>
      cases url? with
      | none => cases h
      | some url =>
          simp only [Bool.and_eq_true, Bool.not_eq_true'] at h
          obtain ⟨⟨hurl, hpre⟩, hrest⟩ := h
          unfold processImage
          simp only
          rw [if_neg (by simp [hurl])]
          unfold fetchData
          rw [if_pos hpre]
          cases hsp : splitOnceComma url with
          | none => rw [hsp] at hrest; cases hrest
          | some p =>
              rw [hsp] at hrest
              obtain ⟨pre, b64⟩ := p
              simp only at hrest ⊢
              cases hb : env.b64decode b64 with
              | none => rw [hb] at hrest; cases hrest
              | some data =>
                  rw [hb] at hrest
                  simp only at hrest ⊢
                  unfold decodeBytes
                  cases hopen : env.pilOpen data with
                  | none => rw [hopen] at hrest; cases hrest
                  | some img => simp

/-- `generate` when the response lacks the `images` key. -/
lemma generate_of_no_images_key {env : Env} {key : Option String}
    {req : GenRequest} (hkey : pyTruthy key = true)
    (hs : env.submit (buildArguments req) = .ok ⟨none⟩) :
    generate env ⟨key⟩ req =
      .error (.noImages "No images were generated by the API.") := by
  unfold generate
  simp only [hkey, Bool.not_true, Bool.false_eq_true, if_false, hs]

/-- `generate` when the response's image list is empty. -/
lemma generate_of_empty_images {env : Env} {key : Option String}
    {req : GenRequest} (hkey : pyTruthy key = true)
    (hs : env.submit (buildArguments req) = .ok ⟨some []⟩) :
    generate env ⟨key⟩ req =
      .error (.noImages "No images were generated by the API.") := by
  unfold generate
  simp only [hkey, Bool.not_true, Bool.false_eq_true, if_false, hs]
  rfl

/-- `generate` when the submission itself fails. -/
lemma generate_of_submit_error {env : Env} {key : Option String}
    {req : GenRequest} {e : SubmitError} (hkey : pyTruthy key = true)
    (hs : env.submit (buildArguments req) = .error e) :
    generate env ⟨key⟩ req =
      .error (.apiError ("An error occurred when calling the fal.ai API: " ++ e.msg) e) := by
  unfold generate
  simp only [hkey, Bool.not_true, Bool.false_eq_true, if_false, hs]

lemma foldl_min_replicate_self (n x : Nat) :
    (List.replicate n x).foldl Nat.min x = x := by
  induction n with
  | zero => rfl
  | succ m ih => simpa [List.replicate_succ, Nat.min_self] using ih

lemma foldl_max_replicate_self (n x : Nat) :
    (List.replicate n x).foldl Nat.max x = x := by
  induction n with
  | zero => rfl
  | succ m ih => simpa [List.replicate_succ, Nat.max_self] using ih

lemma npMin_replicate (n x : Nat) : npMin (List.replicate (n + 1) x) = x := by
  rw [List.replicate_succ]
  exact foldl_min_replicate_self n x

lemma npMax_replicate (n x : Nat) : npMax (List.replicate (n + 1) x) = x := by
  rw [List.replicate_succ]
  exact foldl_max_replicate_self n x

/-- An all-equal buffer has normalisation divisor max − min = 0. -/
lemma fallbackDivisor_replicate (n x : Nat) :
    fallbackDivisor (List.replicate (n + 1) x) = 0 := by
  unfold fallbackDivisor
  rw [npMin_replicate, npMax_replicate]
  exact Nat.sub_self x

/-- In the sample environment, a 1024-byte all-7 buffer is not a standard
image: `Image.open` fails on it. -/
lemma sampleEnv_pilOpen_replicate (r : Except SubmitError ApiResult) :
    (sampleEnvWith r).pilOpen (List.replicate 1024 7) = none := by
  have hne : (List.replicate 1024 7 : Bytes) ≠ [7] := by
    intro h
    have hlen := congrArg List.length h
    rw [List.length_replicate] at hlen
    simp at hlen
  show (if (List.replicate 1024 7 : Bytes) = [7] then some onePix else none)
      = none
  rw [if_neg hne]

/-! ### Claim theorems -/

/-- Claim C6: for every request, a seed of 0 (or an absent seed, the Python
default) is omitted from the payload, and a non-zero seed is included in the
payload with its exact value. -/
theorem seed_inclusion (req : GenRequest) :
    ((req.seed = some 0 ∨ req.seed = none) → (buildArguments req).seed = none) ∧
    (∀ n : Nat, n ≠ 0 → req.seed = some n → (buildArguments req).seed = some n) := by
  constructor
  · rintro (h | h) <;> simp [buildArguments, h]
  · intro n hn h
    simp [buildArguments, h, hn]

/-- Evaluates `seed_inclusion` at seed 0 and seed 42. -/
theorem seed_inclusion_witness :
    (buildArguments { plainReq with seed := some 0 }).seed = none ∧
    (buildArguments { plainReq with seed := some 42 }).seed = some 42 :=
  ⟨(seed_inclusion { plainReq with seed := some 0 }).1 (Or.inl rfl),
   (seed_inclusion { plainReq with seed := some 42 }).2 42 (by decide) rfl⟩

/-- Claim C7: the payload's loras list is exactly the truthy slot values in
slot order 1..5 with empty slots skipped, and the field is present only when
at least one slot is non-empty; in particular slots 1 and 3 set with the
others absent yield `[lora_1_value, lora_3_value]`. -/
theorem lora_slot_collection (req : GenRequest) :
    ((buildArguments req).loras = none ↔ collectLoras (loraSlots req) = []) ∧
    (∀ ls, (buildArguments req).loras = some ls →
      ls = collectLoras (loraSlots req)) ∧
    (∀ a b, req.lora_1 = some a → loraTruthy a = true →
      req.lora_3 = some b → loraTruthy b = true →
      req.lora_2 = none → req.lora_4 = none → req.lora_5 = none →
      (buildArguments req).loras = some [a, b]) := by
  have hb : (buildArguments req).loras =
      if (collectLoras (loraSlots req)).isEmpty then none
      else some (collectLoras (loraSlots req)) := by
    simp [buildArguments, loraLoop_eq_collectLoras]
  refine ⟨?_, ?_, ?_⟩
  · cases hcl : collectLoras (loraSlots req) with
    | nil => simp [hb, hcl]
    | cons c cs => simp [hb, hcl]
  · intro ls hls
    cases hcl : collectLoras (loraSlots req) with
    | nil => rw [hb, hcl] at hls; cases hls
    | cons c cs =>
        rw [hb, hcl] at hls
        simp at hls
        exact hls.symm
  · intro a b h1 ht1 h3 ht3 h2 h4 h5
    rw [hb]
    simp [collectLoras, loraSlots, h1, h2, h3, h4, h5, ht1, ht3]

/-- Evaluates `lora_slot_collection` with slots 1 and 3 set. -/
theorem lora_slot_collection_witness :
    (buildArguments
        { plainReq with
          lora_1 := some ⟨[("path", "a")]⟩,
          lora_3 := some ⟨[("path", "b")]⟩ }).loras =
      some [⟨[("path", "a")]⟩, ⟨[("path", "b")]⟩] :=
  (lora_slot_collection _).2.2 ⟨[("path", "a")]⟩ ⟨[("path", "b")]⟩
    rfl (by decide) rfl (by decide) rfl rfl rfl

/-- Claim C2 (refuted by the code): with the credential absent,
`get_api_key` returns `None`, and `__init__` then crashes with a `TypeError`
at `os.environ["FAL_KEY"] = self.api_key` — the adapter is not constructed,
so the deferred configuration error in `generate` is unreachable for an
absent key. -/
theorem init_fails_when_credential_absent :
    get_api_key ⟨false, none⟩ = none ∧
    get_api_key ⟨true, none⟩ = none ∧
    initNode ⟨false, none⟩ = .error (.typeError "str expected, not NoneType") ∧
    initNode ⟨true, none⟩ = .error (.typeError "str expected, not NoneType") :=
  ⟨rfl, rfl, rfl, rfl⟩

/-- Claim C5: a failure of the remote submission is wrapped into a single
generation error carrying the fixed prefix plus the original message, and
the original error itself (including its response body when present), and
the whole call aborts with no partial image list. -/
theorem submit_failure_wraps_and_aborts (env : Env) (key : Option String)
    (req : GenRequest) (e : SubmitError) (hkey : pyTruthy key = true)
    (hs : env.submit (buildArguments req) = .error e) :
    generate env ⟨key⟩ req =
      .error (.apiError
        ("An error occurred when calling the fal.ai API: " ++ e.msg) e) ∧
    (∀ ts : List ImageTensor, generate env ⟨key⟩ req ≠ .ok ts) := by
  have hg := generate_of_submit_error hkey hs
  exact ⟨hg, fun ts hok => by rw [hg] at hok; cases hok⟩

/-- Evaluates `submit_failure_wraps_and_aborts` on a failing submission. -/
theorem submit_failure_wraps_and_aborts_witness :
    pyTruthy (some "k") = true ∧
    (sampleEnvWith (.error ⟨"boom", some "body"⟩)).submit
        (buildArguments plainReq) = .error ⟨"boom", some "body"⟩ ∧
    generate (sampleEnvWith (.error ⟨"boom", some "body"⟩)) ⟨some "k"⟩ plainReq =
      .error (.apiError
        ("An error occurred when calling the fal.ai API: " ++ "boom")
        ⟨"boom", some "body"⟩) :=
  ⟨by decide, rfl,
   (submit_failure_wraps_and_aborts
      (sampleEnvWith (.error ⟨"boom", some "body"⟩)) (some "k") plainReq
      ⟨"boom", some "body"⟩ (by decide) rfl).1⟩

/-- Claim C1: a failure while processing one descriptor drops only that
descriptor — the returned list is exactly the list of per-descriptor
survivors, in response order — and a 3-descriptor response with exactly one
failing descriptor yields exactly 2 images with no error raised. -/
theorem per_image_failure_isolation (env : Env) (key : Option String)
    (req : GenRequest) (l : List Descriptor) (hkey : pyTruthy key = true)
    (hs : env.submit (buildArguments req) = .ok ⟨some l⟩)
    (hne : l.filterMap (processImage env) ≠ []) :
    generate env ⟨key⟩ req = .ok (l.filterMap (processImage env)) ∧
    (l.length = 3 → l.countP (fun d => (processImage env d).isNone) = 1 →
      (l.filterMap (processImage env)).length = 2) := by
  constructor
  · have hlne : l ≠ [] := by
      intro h; subst h; exact hne rfl
    rw [generate_of_images hkey hs hlne]
    have hie : (l.filterMap (processImage env)).isEmpty = false := by
      cases hc : l.filterMap (processImage env) with
      | nil => exact absurd hc hne
      | cons a as => rfl
    simp [hie]
  · intro h3 h1
    have := length_filterMap_add_countP_isNone (processImage env) l
    omega

/-- Evaluates `per_image_failure_isolation` on a 3-descriptor response whose
middle descriptor has a malformed data URI. -/
theorem per_image_failure_isolation_witness :
    pyTruthy (some "k") = true ∧
    (sampleEnvWith (.ok ⟨some threeDescs⟩)).submit (buildArguments plainReq) =
      .ok ⟨some threeDescs⟩ ∧
    threeDescs.filterMap
      (processImage (sampleEnvWith (.ok ⟨some threeDescs⟩))) ≠ [] ∧
    generate (sampleEnvWith (.ok ⟨some threeDescs⟩)) ⟨some "k"⟩ plainReq =
      .ok (threeDescs.filterMap
        (processImage (sampleEnvWith (.ok ⟨some threeDescs⟩)))) ∧
    (threeDescs.filterMap
      (processImage (sampleEnvWith (.ok ⟨some threeDescs⟩)))).length = 2 := by
  have h := per_image_failure_isolation (sampleEnvWith (.ok ⟨some threeDescs⟩))
    (some "k") plainReq threeDescs (by decide) rfl (by decide)
  exact ⟨by decide, rfl, by decide, h.1, h.2 (by decide) (by decide)⟩

/-- Claim C3: after a successful submission, `generate` raises an
EmptyResultError-kind error (the `noImages` or `processingFailed`
RuntimeError) iff the response contains no images or every descriptor failed
decoding; any successful return carries a non-empty list. -/
theorem empty_result_error_iff (env : Env) (key : Option String)
    (req : GenRequest) (res : ApiResult) (hkey : pyTruthy key = true)
    (hs : env.submit (buildArguments req) = .ok res) :
    ((∃ er : GenError, generate env ⟨key⟩ req = .error er ∧
        er.isEmptyResult = true) ↔
      (res.images = none ∨
        ∃ l, res.images = some l ∧ l.filterMap (processImage env) = [])) ∧
    (∀ ts, generate env ⟨key⟩ req = .ok ts → ts ≠ []) := by
  obtain ⟨images⟩ := res
  cases images with
  | none =>
      have hg := generate_of_no_images_key hkey hs
      refine ⟨⟨fun _ => Or.inl rfl, fun _ => ⟨_, hg, rfl⟩⟩, ?_⟩
      intro ts hok; rw [hg] at hok; cases hok
  | some l =>
      by_cases hnil : l = []
      · subst hnil
        have hg := generate_of_empty_images hkey hs
        refine ⟨⟨fun _ => Or.inr ⟨[], rfl, rfl⟩, fun _ => ⟨_, hg, rfl⟩⟩, ?_⟩
        intro ts hok; rw [hg] at hok; cases hok
      · have hg := generate_of_images hkey hs hnil
        by_cases hfm : l.filterMap (processImage env) = []
        · rw [hfm] at hg
          simp only [List.isEmpty_nil, if_true] at hg
          refine ⟨⟨fun _ => Or.inr ⟨l, rfl, hfm⟩, fun _ => ⟨_, hg, rfl⟩⟩, ?_⟩
          intro ts hok; rw [hg] at hok; cases hok
        · have hie : (l.filterMap (processImage env)).isEmpty = false := by
            cases hc : l.filterMap (processImage env) with
            | nil => exact absurd hc hfm
            | cons a as => rfl
          rw [hie] at hg
          simp only [Bool.false_eq_true, if_false] at hg
          constructor
          · constructor
            · rintro ⟨er, her, _⟩
              rw [hg] at her; cases her
            · rintro (h | ⟨l2, hl2, hfm2⟩)
              · cases h
              · injection hl2 with h2
                subst h2
                exact absurd hfm2 hfm
          · intro ts hok
            rw [hg] at hok
            injection hok with h
            subst h
            exact hfm

/-- Evaluates `empty_result_error_iff` on a response whose only descriptor
fails decoding: an EmptyResultError-kind error is raised. -/
theorem empty_result_error_iff_witness :
    pyTruthy (some "k") = true ∧
    (sampleEnvWith (.ok ⟨some [badDesc]⟩)).submit (buildArguments plainReq) =
      .ok ⟨some [badDesc]⟩ ∧
    (∃ er : GenError,
      generate (sampleEnvWith (.ok ⟨some [badDesc]⟩)) ⟨some "k"⟩ plainReq =
        .error er ∧ er.isEmptyResult = true) :=
  ⟨by decide, rfl,
   (empty_result_error_iff (sampleEnvWith (.ok ⟨some [badDesc]⟩)) (some "k")
      plainReq ⟨some [badDesc]⟩ (by decide) rfl).1.mpr
     (Or.inr ⟨[badDesc], rfl, by decide⟩)⟩

/-- Claim C4: with `num_images` in 1..4 and a response of exactly that many
valid data-URI descriptors, `generate` returns exactly that many tensors, in
response order, each with three channels, shape-consistent flat data
(H·W·3 samples), and all values in [0, 1]. -/
theorem valid_data_uri_generation (env : Env) (key : Option String)
    (req : GenRequest) (l : List Descriptor) (hwf : EnvWF env)
    (hkey : pyTruthy key = true)
    (hn1 : 1 ≤ req.num_images) (hn4 : req.num_images ≤ 4)
    (hs : env.submit (buildArguments req) = .ok ⟨some l⟩)
    (hlen : l.length = req.num_images)
    (hvalid : ∀ d ∈ l, isValidDataUriDesc env d = true) :
    ∃ ts : List ImageTensor,
      generate env ⟨key⟩ req = .ok ts ∧
      ts.length = req.num_images ∧
      l.map (processImage env) = ts.map some ∧
      (∀ t ∈ ts, t.channels = 3 ∧ t.data.length = t.height * t.width * 3 ∧
        ∀ q ∈ t.data, 0 ≤ q ∧ q ≤ 1) := by
  have hsome : ∀ d ∈ l, (processImage env d).isSome = true :=
    fun d hd => processImage_isSome_of_valid (hvalid d hd)
  have hmap := map_eq_filterMap_map_some (processImage env) l hsome
  have hlen2 : (l.filterMap (processImage env)).length = l.length := by
    have h := congrArg List.length hmap
    simpa using h.symm
  have hlne : l ≠ [] := by
    intro h
    subst h
    simp at hlen
    omega
  have hne : l.filterMap (processImage env) ≠ [] := by
    intro h
    have h0 : l.length = 0 := by rw [← hlen2, h]; rfl
    omega
  refine ⟨l.filterMap (processImage env), ?_, ?_, hmap, ?_⟩
  · rw [generate_of_images hkey hs hlne]
    have hie : (l.filterMap (processImage env)).isEmpty = false := by
      cases hc : l.filterMap (processImage env) with
      | nil => exact absurd hc hne
      | cons a as => rfl
    simp [hie]
  · rw [hlen2, hlen]
  · intro t ht
    rcases List.mem_filterMap.mp ht with ⟨d, _, hf⟩
    exact processImage_wf hwf hf

/-- Evaluates `valid_data_uri_generation` on a 2-image data-URI response. -/
theorem valid_data_uri_generation_witness :
    pyTruthy (some "k") = true ∧
    (∀ d ∈ [goodDesc, goodDesc],
      isValidDataUriDesc
        (sampleEnvWith (.ok ⟨some [goodDesc, goodDesc]⟩)) d = true) ∧
    (∃ ts : List ImageTensor,
      generate (sampleEnvWith (.ok ⟨some [goodDesc, goodDesc]⟩)) ⟨some "k"⟩
          { plainReq with num_images := 2 } = .ok ts ∧
      ts.length = 2 ∧
      [goodDesc, goodDesc].map
          (processImage (sampleEnvWith (.ok ⟨some [goodDesc, goodDesc]⟩))) =
        ts.map some ∧
      (∀ t ∈ ts, t.channels = 3 ∧ t.data.length = t.height * t.width * 3 ∧
        ∀ q ∈ t.data, 0 ≤ q ∧ q ≤ 1)) :=
  ⟨by decide, by decide,
   valid_data_uri_generation (sampleEnvWith (.ok ⟨some [goodDesc, goodDesc]⟩))
     (some "k") { plainReq with num_images := 2 } [goodDesc, goodDesc]
     (sampleEnv_wf _) (by decide) (by decide) (by decide) rfl (by decide)
     (by decide)⟩

/-- Claim C8: bytes that fail standard image decoding and have flat length
exactly 1024 go through the fallback — reshape to 32×32, min-max normalise,
grayscale construction, RGB conversion — and produce a (32, 32, 3) output
tensor. -/
theorem raw_fallback_1024_shape (env : Env) (data : Bytes) (hwf : EnvWF env)
    (hfail : env.pilOpen data = none) (hlen : data.length = 1024) :
    ∃ t : ImageTensor, decodeBytes env data = some t ∧
      t.height = 32 ∧ t.width = 32 ∧ t.channels = 3 ∧
      t.data.length = 32 * 32 * 3 := by
  have hfb := rawFallback_of_length_eq env data hlen
  have hpil : PILWF
      { mode := "L", height := 32, width := 32, channels := 1,
        data := minMaxNormalize env data } :=
    pilwf_gray env hwf.nanCast_le 32 32 data (by rw [hlen])
  have hc := convertRGB_wf hwf hpil
  refine ⟨tensorOfImage (convertRGB env
    { mode := "L", height := 32, width := 32, channels := 1,
      data := minMaxNormalize env data }), ?_, hc.2.2.1, hc.2.2.2.1,
    hc.2.1, ?_⟩
  · unfold decodeBytes
    rw [hfail]
    simp only
    rw [hfb]
    simp only
    rw [if_pos hc.1]
  · simp only [tensorOfImage, List.length_map]
    rw [hc.2.2.2.2.1, hc.2.2.1, hc.2.2.2.1]

/-- Evaluates `raw_fallback_1024_shape` on 1024 bytes that fail standard
decoding. -/
theorem raw_fallback_1024_shape_witness :
    (sampleEnvWith (.ok ⟨none⟩)).pilOpen (List.replicate 1024 7) = none ∧
    (List.replicate 1024 7 : Bytes).length = 1024 ∧
    (∃ t : ImageTensor,
      decodeBytes (sampleEnvWith (.ok ⟨none⟩)) (List.replicate 1024 7) =
        some t ∧
      t.height = 32 ∧ t.width = 32 ∧ t.channels = 3 ∧
      t.data.length = 32 * 32 * 3) :=
  ⟨sampleEnv_pilOpen_replicate _, by rw [List.length_replicate],
   raw_fallback_1024_shape (sampleEnvWith (.ok ⟨none⟩))
     (List.replicate 1024 7) (sampleEnv_wf _)
     (sampleEnv_pilOpen_replicate _) (by rw [List.length_replicate])⟩

/-- Claim C9 as stated is false at the empty buffer: its flat length is not
1024 and it is indeed left un-reshaped, yet it does not reach the
grayscale-image construction — `img_np.min()` raises `ValueError` on the
empty array first, and the fallback drops the image before any construction
happens. -/
theorem frombuffer_empty_counterexample :
    ([] : Bytes).length ≠ 1024 ∧
    fallbackReshape (frombuffer []) = frombuffer [] ∧
    (∀ env : Env, rawFallback env [] = none) :=
  ⟨by decide, rfl, fun env => rawFallback_nil env⟩

/-- Claim C9 (amended): `np.frombuffer` always yields a flat one-dimensional
array, so the branch for shape (1, 1, 1024) is unreachable; only buffers of
flat length exactly 1024 are reshaped to 32×32; every other non-empty buffer
reaches the grayscale-image construction un-reshaped, where Pillow builds a
height×1 image from the 1-D array, so the buffer survives; the empty buffer
is dropped when `min()` raises, before the construction. -/
theorem frombuffer_one_dimensional (data : Bytes) :
    (frombuffer data).shape ≠ [1, 1, 1024] ∧
    ((fallbackReshape (frombuffer data)).shape = [32, 32] ↔
      data.length = 1024) ∧
    (data.length ≠ 1024 → fallbackReshape (frombuffer data) = frombuffer data) ∧
    (∀ env : Env, data.length ≠ 1024 → data ≠ [] →
      rawFallback env data =
        some (convertRGB env
          { mode := "L", height := data.length, width := 1, channels := 1,
            data := minMaxNormalize env data })) := by
  refine ⟨?_, ?_, ?_, ?_⟩
  · simp [frombuffer]
  · by_cases h : data.length = 1024
    · rw [fallbackReshape_of_len data h]
      simp [h]
    · rw [fallbackReshape_of_len_ne data h]
      simp [h]
  · intro h
    exact fallbackReshape_of_len_ne data h
  · intro env h hnil
    exact rawFallback_of_length_ne env data h hnil

/-- Evaluates `frombuffer_one_dimensional` on a 3-byte buffer: un-reshaped,
it survives as a 3×1 grayscale image converted to RGB. -/
theorem frombuffer_one_dimensional_witness :
    (frombuffer [1, 2, 3]).shape ≠ [1, 1, 1024] ∧
    fallbackReshape (frombuffer [1, 2, 3]) = frombuffer [1, 2, 3] ∧
    rawFallback (sampleEnvWith (.ok ⟨none⟩)) [1, 2, 3] =
      some (convertRGB (sampleEnvWith (.ok ⟨none⟩))
        { mode := "L", height := 3, width := 1, channels := 1,
          data := minMaxNormalize (sampleEnvWith (.ok ⟨none⟩)) [1, 2, 3] }) :=
  ⟨(frombuffer_one_dimensional [1, 2, 3]).1,
   (frombuffer_one_dimensional [1, 2, 3]).2.2.1 (by decide),
   (frombuffer_one_dimensional [1, 2, 3]).2.2.2 _ (by decide) (by decide)⟩

/-- Claim C10: a buffer of 1024 identical bytes that fails standard decoding
reaches the min-max normalisation with divisor max − min equal to zero, so
the normalisation divides by zero — the pixel values become the
platform-defined casts of NaN/Inf (`nanCast`) instead of a well-defined
0–255 image. -/
theorem all_equal_bytes_zero_divisor :
    fallbackDivisor (List.replicate 1024 7) = 0 ∧
    (sampleEnvWith (.ok ⟨none⟩)).pilOpen (List.replicate 1024 7) = none ∧
    (∀ env : Env, minMaxNormalize env (List.replicate 1024 7) =
      (List.replicate 1024 7).map env.nanCast) := by
  have h0 : fallbackDivisor (List.replicate 1024 7) = 0 :=
    fallbackDivisor_replicate 1023 7
  refine ⟨h0, sampleEnv_pilOpen_replicate _, ?_⟩
  intro env
  unfold minMaxNormalize
  rw [if_pos h0]

/-- Evaluates `all_equal_bytes_zero_divisor` in the sample environment. -/
theorem all_equal_bytes_zero_divisor_witness :
    minMaxNormalize (sampleEnvWith (.ok ⟨none⟩)) (List.replicate 1024 7) =
      (List.replicate 1024 7).map (sampleEnvWith (.ok ⟨none⟩)).nanCast :=
  all_equal_bytes_zero_divisor.2.2 (sampleEnvWith (.ok ⟨none⟩))

end FalFlux
